import Mathlib

/-!
# Verification of the VibeConnect server coordination kernel

Shallow embedding of the server-side coordination kernel of the VibeConnect
anonymous chat service and proofs about its claimed properties.

The embedding follows the refactored, manager-based implementation
(`server/QueueManager.js` second variant, `server/MessageRouter.js`,
the `PairingManager`, `SecurityManager` and `ConnectionManager` modules and
the refactored server entry file), which the design notes declare
authoritative.  The legacy monolithic `server.js` is embedded only where a
claim needs it for comparison (the report cascade and disconnect flows).

Conventions of the embedding:
* JavaScript `Map`s are modelled by `JMap`, association lists with the exact
  JS `Map` semantics: `set` updates an existing key in place and appends a
  fresh key at the end, `delete` removes the key, iteration order is
  insertion order.
* Timestamps (`Date.now()`) are passed explicitly as `now : Nat` arguments.
* Fallible steps (JSON parsing) are modelled with `Option`.
* `setTimeout` callbacks (the mode-switch pending expiry) are not part of a
  handler's immediate effect and are therefore not fired inside the step
  functions; no claim below exercises a timer.
* Third-party code (the `bad-words` profanity filter) is passed in as an
  explicit function argument `pf : String → String`.
-/

/-- Chat interaction modes; the fixed set `{text, video, voice}`. -/
inductive Mode where
  | text
  | video
  | voice
deriving DecidableEq, Repr

/-- Association list modelling a JavaScript `Map` with string keys: entries
are kept in insertion order and keys are unique (every `Map` built by the
embedded code has unique keys, so the structurally-recursive operations
below coincide with the JS `Map` methods). -/
abbrev JMap (β : Type) : Type := List (String × β)

namespace JMap

/-- The empty map (`new Map()`). -/
def empty {β : Type} : JMap β := []

/-- Embeds `Map.prototype.get`, returning `none` for a missing key. -/
def get {β : Type} : JMap β → String → Option β
  | [], _ => none
  | p :: rest, k => if p.1 = k then some p.2 else get rest k

/-- Embeds `Map.prototype.has`. -/
def hasKey {β : Type} : JMap β → String → Bool
  | [], _ => false
  | p :: rest, k => p.1 = k || hasKey rest k

/-- Embeds `Map.prototype.set`: update an existing key in place, else append. -/
def set {β : Type} : JMap β → String → β → JMap β
  | [], k, v => [(k, v)]
  | p :: rest, k, v => if p.1 = k then (k, v) :: rest else p :: set rest k v

/-- Embeds `Map.prototype.delete` (state effect only; the embedded code never uses
the Bool result of `delete`). -/
def del {β : Type} : JMap β → String → JMap β
  | [], _ => []
  | p :: rest, k => if p.1 = k then rest else p :: del rest k

/-- Embeds `Map.prototype.size`. -/
def size {β : Type} (m : JMap β) : Nat := List.length m

end JMap

/-- A record with one value per chat mode; models the JS objects
`{ text: …, video: …, voice: … }` indexed by a mode string. -/
structure ModeMap (α : Type) where
  text : α
  video : α
  voice : α
deriving DecidableEq, Repr

namespace ModeMap

/-- Read `obj[mode]`. -/
def get {α : Type} (m : ModeMap α) : Mode → α
  | Mode.text => m.text
  | Mode.video => m.video
  | Mode.voice => m.voice

/-- Write `obj[mode] = v`. -/
def put {α : Type} (m : ModeMap α) : Mode → α → ModeMap α
  | Mode.text, v => { m with text := v }
  | Mode.video, v => { m with video := v }
  | Mode.voice, v => { m with voice := v }

/-- Constant mode map. -/
def const {α : Type} (v : α) : ModeMap α := ⟨v, v, v⟩

end ModeMap

/-! ## PairingManager (`PairingManager.js`) -/

/-- Embeds `['text','video','voice'].includes(mode)` — the mode validity test used
by `createPair` and `switchMode`. -/
def modeOk (m : Mode) : Bool :=
  m == Mode.text || m == Mode.video || m == Mode.voice

/-- Lexicographic comparison of char lists (true when `a ≤ b`), the order
used by the JS default `Array.prototype.sort` on strings (code-unit
comparison; identical to code-point comparison on the BMP strings the
server handles). -/
def charListLe : List Char → List Char → Bool
  | [], _ => true
  | _ :: _, [] => false
  | a :: as, b :: bs => if a = b then charListLe as bs else decide (a < b)

/-- String comparison underlying `[user1, user2].sort()`. -/
def strLe (a b : String) : Bool := charListLe a.data b.data

/-- Embeds `_generatePairId(user1, user2)`: `[user1, user2].sort().join('_')`. -/
def sortedJoin (u1 u2 : String) : String :=
  if strLe u1 u2 then u1 ++ "_" ++ u2 else u2 ++ "_" ++ u1

/-- One entry of a session's `switches` history: `{from, to, timestamp}`. -/
structure SwitchRec where
  fromMode : Mode
  toMode : Mode
  timestamp : Nat
deriving DecidableEq, Repr

/-- A session record:
`{ user1, user2, mode, startTime, messageCount, switches }`. -/
structure Session where
  user1 : String
  user2 : String
  mode : Mode
  startTime : Nat
  messageCount : Nat
  switches : List SwitchRec
deriving DecidableEq, Repr

/-- PairingManager state.  The float metric `averageSessionDuration` is
derived from `sessionDurations` and omitted (floating point; no claim uses
it). -/
structure PMState where
  pairs : JMap String
  sessions : JMap Session
  userModes : JMap Mode
  modeSwitchPending : JMap String
  totalPairs : Nat
  activePairs : Nat
  totalSessions : Nat
  modeSwitches : Nat
  sessionDurations : List Nat
deriving DecidableEq, Repr

/-- The initial PairingManager state (`new PairingManager()`). -/
def PMState.init : PMState :=
  { pairs := [], sessions := [], userModes := [], modeSwitchPending := [],
    totalPairs := 0, activePairs := 0, totalSessions := 0, modeSwitches := 0,
    sessionDurations := [] }

/-- Embeds `createPair` result: `{success:true, pairId}` or `{success:false, error}`. -/
inductive CPRes where
  | ok (pairId : String)
  | err (msg : String)
deriving DecidableEq, Repr

/-- Embeds `PairingManager.createPair(user1, user2, mode)`. -/
def createPair (st : PMState) (user1 user2 : String) (mode : Mode) (now : Nat) :
    CPRes × PMState :=
  if user1 = user2 then
    (CPRes.err "Cannot pair user with themselves", st)
  else if st.pairs.hasKey user1 || st.pairs.hasKey user2 then
    (CPRes.err "One or both users already paired", st)
  else if !(modeOk mode) then
    (CPRes.err "Invalid mode", st)
  else
    let pairs := (st.pairs.set user1 user2).set user2 user1
    let userModes := (st.userModes.set user1 mode).set user2 mode
    let pairId := sortedJoin user1 user2
    let sessions := st.sessions.set pairId
      { user1 := user1, user2 := user2, mode := mode, startTime := now,
        messageCount := 0, switches := [] }
    (CPRes.ok pairId,
     { st with
       pairs := pairs, userModes := userModes, sessions := sessions,
       totalPairs := st.totalPairs + 1,
       activePairs := pairs.size / 2,
       totalSessions := st.totalSessions + 1 })

/-- Embeds `PairingManager.getPair(userId)` (`|| null` becomes `Option`). -/
def getPair (st : PMState) (userId : String) : Option String :=
  st.pairs.get userId

/-- Embeds `PairingManager.isPaired(userId)`. -/
def isPaired (st : PMState) (userId : String) : Bool :=
  st.pairs.hasKey userId

/-- Embeds `PairingManager.getUserMode(userId)`. -/
def getUserMode (st : PMState) (userId : String) : Option Mode :=
  st.userModes.get userId

/-- Embeds `breakPair` result:
`{success:true, partnerId, sessionData}` or `{success:false, error}`. -/
inductive BPRes where
  | ok (partnerId : String) (sessionData : Option Session)
  | err (msg : String)
deriving DecidableEq, Repr

/-- Embeds `PairingManager.breakPair(userId)`.  The `sessionDurations` metric push
(then shift past 100 entries) is kept; the derived float average is
omitted. -/
def breakPair (st : PMState) (userId : String) (now : Nat) : BPRes × PMState :=
  match st.pairs.get userId with
  | none => (BPRes.err "User not paired", st)
  | some partnerId =>
    let pairId := sortedJoin userId partnerId
    let session := st.sessions.get pairId
    let durations :=
      match session with
      | some s =>
        let l := st.sessionDurations ++ [now - s.startTime]
        if l.length > 100 then l.drop 1 else l
      | none => st.sessionDurations
    let pairs := (st.pairs.del userId).del partnerId
    (BPRes.ok partnerId session,
     { st with
       pairs := pairs,
       userModes := (st.userModes.del userId).del partnerId,
       sessions := st.sessions.del pairId,
       modeSwitchPending := (st.modeSwitchPending.del userId).del partnerId,
       sessionDurations := durations,
       activePairs := pairs.size / 2 })

/-- Embeds `switchMode` result.  `first` is
`{success:true, isOfferer:true, partnerId, bothReady:false, waiting:true}`
(first arrival), `ready` is
`{success:true, isOfferer:false, partnerId, bothReady:true}`
(second arrival). -/
inductive SMRes where
  | err (msg : String)
  | first (partnerId : String)
  | ready (partnerId : String)
deriving DecidableEq, Repr

/-- Embeds `PairingManager.switchMode(userId, partnerId, newMode)`.  The
`setTimeout` that would later expire the pending entry is a deferred timer,
not part of this step's effect. -/
def switchMode (st : PMState) (userId partnerId : String) (newMode : Mode)
    (now : Nat) : SMRes × PMState :=
  if st.pairs.get userId ≠ some partnerId then
    (SMRes.err "Users not paired", st)
  else if !(modeOk newMode) then
    (SMRes.err "Invalid mode", st)
  else
    let userModes := st.userModes.set userId newMode
    match st.modeSwitchPending.get userId with
    | some initiatorId =>
      let pending := st.modeSwitchPending.del userId
      if st.pairs.get initiatorId ≠ some userId then
        (SMRes.err "Pairing changed during mode switch",
         { st with userModes := userModes, modeSwitchPending := pending })
      else
        let userModes2 := userModes.set initiatorId newMode
        let pairId := sortedJoin userId initiatorId
        let sessions :=
          match st.sessions.get pairId with
          | some s =>
            st.sessions.set pairId
              { s with
                switches := s.switches ++ [⟨s.mode, newMode, now⟩],
                mode := newMode }
          | none => st.sessions
        (SMRes.ready initiatorId,
         { st with
           userModes := userModes2, modeSwitchPending := pending,
           sessions := sessions, modeSwitches := st.modeSwitches + 1 })
    | none =>
      (SMRes.first partnerId,
       { st with
         userModes := userModes,
         modeSwitchPending := st.modeSwitchPending.set partnerId userId })

/-- Embeds `PairingManager.incrementMessageCount(userId)`. -/
def incrementMessageCount (st : PMState) (userId : String) : PMState :=
  match st.pairs.get userId with
  | none => st
  | some partnerId =>
    let pairId := sortedJoin userId partnerId
    match st.sessions.get pairId with
    | some s =>
      { st with sessions :=
          st.sessions.set pairId { s with messageCount := s.messageCount + 1 } }
    | none => st

/-! ## QueueManager (`server/QueueManager.js`, the refactored variant with
the matching lock and the `userQueueMap` fast lookup) -/

/-- A `queueTimestamps` entry: `{ mode, timestamp, priority }`. -/
structure TsEntry where
  mode : Mode
  timestamp : Nat
  priority : Nat
deriving DecidableEq, Repr

/-- A `userQueueMap` entry: `{ mode, isPriority }`. -/
structure UQEntry where
  mode : Mode
  isPriority : Bool
deriving DecidableEq, Repr

/-- QueueManager state.  The derived `metrics.queueSizes` object (recomputed
from the queues by `updateQueueSizeMetrics` on every change) and the float
average wait time are omitted; `totalMatches`, `totalTimeouts` and
`matchTimes` are kept. -/
structure QMState where
  queues : ModeMap (List String)
  priorityQueues : ModeMap (List String)
  queueTimestamps : JMap TsEntry
  userQueueMap : JMap UQEntry
  matchingLock : Bool
  maxQueueSize : Nat
  enablePriority : Bool
  totalMatches : Nat
  totalTimeouts : Nat
  matchTimes : List Nat
deriving DecidableEq, Repr

/-- The initial QueueManager state with the server's configuration
(`maxQueueSize: 10000, enablePriority: true`). -/
def QMState.init : QMState :=
  { queues := ModeMap.const [], priorityQueues := ModeMap.const [],
    queueTimestamps := [], userQueueMap := [], matchingLock := false,
    maxQueueSize := 10000, enablePriority := true,
    totalMatches := 0, totalTimeouts := 0, matchTimes := [] }

/-- Embeds `QueueManager.removeFromQueue(userId)` — O(1) variant using the
`userQueueMap` fast lookup. -/
def removeFromQueue (st : QMState) (userId : String) : Bool × QMState :=
  match st.userQueueMap.get userId with
  | none =>
    (false,
     { st with queueTimestamps :=
         if st.queueTimestamps.hasKey userId then st.queueTimestamps.del userId
         else st.queueTimestamps })
  | some qi =>
    if qi.isPriority then
      (true,
       { st with
         priorityQueues :=
           st.priorityQueues.put qi.mode ((st.priorityQueues.get qi.mode).erase userId),
         userQueueMap := st.userQueueMap.del userId,
         queueTimestamps := st.queueTimestamps.del userId })
    else
      (true,
       { st with
         queues := st.queues.put qi.mode ((st.queues.get qi.mode).erase userId),
         userQueueMap := st.userQueueMap.del userId,
         queueTimestamps := st.queueTimestamps.del userId })

/-- Embeds `QueueManager.addToQueue(userId, mode, priority = 0)`. -/
def addToQueue (st : QMState) (userId : String) (mode : Mode) (priority : Nat)
    (now : Nat) : Bool × QMState :=
  let total := (st.queues.get mode).length + (st.priorityQueues.get mode).length
  if total ≥ st.maxQueueSize then (false, st)
  else
    let st1 := (removeFromQueue st userId).2
    let isPri := decide (priority > 0) && st1.enablePriority
    let st2 :=
      if isPri then
        { st1 with priorityQueues :=
            st1.priorityQueues.put mode ((st1.priorityQueues.get mode) ++ [userId]) }
      else
        { st1 with queues :=
            st1.queues.put mode ((st1.queues.get mode) ++ [userId]) }
    (true,
     { st2 with
       userQueueMap := st2.userQueueMap.set userId ⟨mode, isPri⟩,
       queueTimestamps := st2.queueTimestamps.set userId ⟨mode, now, priority⟩ })

/-- A `matchUsers` result: `{ user1, user2, waitTime, matchTime, mode }`. -/
structure MatchResult where
  user1 : String
  user2 : String
  waitTime : Nat
  matchTime : Nat
  mode : Mode
deriving DecidableEq, Repr

/-- Tail of `matchUsers` after the two heads have been shifted out of their
queues (`st` is the state with both shifts applied): the self-match guard,
wait-time computation, timestamp/user-map cleanup and metrics update.  The
third component collects the log lines emitted inside `matchUsers`; the
source emits none anywhere in `matchUsers`, including in the self-match
guard branch. -/
def matchFinish (st : QMState) (mode : Mode) (now : Nat) (u1 u2 : String) :
    Option MatchResult × QMState × List String :=
  if u1 = u2 then
    (none,
     { st with
       queues := st.queues.put mode (u1 :: st.queues.get mode),
       userQueueMap := st.userQueueMap.set u1 ⟨mode, false⟩,
       matchingLock := false },
     [])
  else
    let t1 := st.queueTimestamps.get u1
    let t2 := st.queueTimestamps.get u2
    let waitTime :=
      match t1, t2 with
      | some a, some b => max (now - a.timestamp) (now - b.timestamp)
      | _, _ => 0
    -- matchTime is Date.now() - startTime within one atomic step, i.e. 0
    let matchTime := 0
    let mts := let l := st.matchTimes ++ [matchTime]
               if l.length > 100 then l.drop 1 else l
    (some ⟨u1, u2, waitTime, matchTime, mode⟩,
     { st with
       queueTimestamps := (st.queueTimestamps.del u1).del u2,
       userQueueMap := (st.userQueueMap.del u1).del u2,
       totalMatches := st.totalMatches + 1,
       matchTimes := mts,
       matchingLock := false },
     [])

/-- Embeds `QueueManager.matchUsers(mode)`.  The mutex bracket
(`matchingLock = true` … `finally { matchingLock = false }`) is sequential
here, so the lock is taken and released within the step; an entry with the
lock already held returns `null` immediately. -/
def matchUsers (st : QMState) (mode : Mode) (now : Nat) :
    Option MatchResult × QMState × List String :=
  if st.matchingLock then (none, st, [])
  else
    let st := { st with matchingLock := true }
    match st.priorityQueues.get mode, st.queues.get mode with
    | u1 :: u2 :: prest, _ =>
      matchFinish { st with priorityQueues := st.priorityQueues.put mode prest }
        mode now u1 u2
    | [u1], u2 :: nrest =>
      matchFinish
        { st with
          priorityQueues := st.priorityQueues.put mode [],
          queues := st.queues.put mode nrest }
        mode now u1 u2
    | [], u1 :: u2 :: nrest =>
      matchFinish { st with queues := st.queues.put mode nrest } mode now u1 u2
    | _, _ => (none, { st with matchingLock := false }, [])

/-! ## SecurityManager (content validation, rate limits, abuse tracking)

Only the surfaces reached by the routed handlers are embedded: rate
limiting, content validation, fingerprint reputation, abuse tracking /
detection and IP banning.  The JWT helper, the AES encryption helper, the
IP-connection window and the periodic cleanup are not exercised by any
handler embedded here. -/

/-- JS regex `\w`: `[A-Za-z0-9_]` (ASCII; the source regexes are
non-unicode). -/
def isWordChar (c : Char) : Bool := c.isAlphanum || c = '_'

/-- Substring containment on char lists (the effect of testing a literal
regex such as `/<script/i` against the lowercased text). -/
def containsSub (needle : List Char) : List Char → Bool
  | [] => needle.isPrefixOf []
  | l@(_ :: rest) => needle.isPrefixOf l || containsSub needle rest

/-- Matches `\w*=` at the start of the list. -/
def wordStarEq : List Char → Bool
  | [] => false
  | c :: rest => if c = '=' then true else isWordChar c && wordStarEq rest

/-- Matches `\w+=` at the start of the list. -/
def wordPlusEq : List Char → Bool
  | [] => false
  | c :: rest => isWordChar c && wordStarEq rest

/-- JS regex `/on\w+=/i` against the lowercased text: an occurrence of
`on` followed by one or more word characters and `=`. -/
def hasOnAttr : List Char → Bool
  | 'o' :: 'n' :: rest => wordPlusEq rest || hasOnAttr ('n' :: rest)
  | _ :: rest => hasOnAttr rest
  | [] => false

/-- The word `w` occurs at the head of `l` with regex word boundaries on
both sides; `prev` is the character just before `l` (`none` at the start
of the text). -/
def wordHereB (w : List Char) (prev : Option Char) (l : List Char) : Bool :=
  w.isPrefixOf l
    && (match prev with | some c => !isWordChar c | none => true)
    && (match l.drop w.length with | c :: _ => !isWordChar c | [] => true)

/-- Scans for `\bw\b` reachable by `.*` (which cannot cross a newline in a
JS regex without the `s` flag). -/
def scanWordNoNL (w : List Char) : Option Char → List Char → Bool
  | _, [] => false
  | prev, c :: rest =>
    wordHereB w prev (c :: rest) || (!(c = '\n') && scanWordNoNL w (some c) rest)

/-- JS regex `/\bw1\b.*\bw2\b/i` against the lowercased text (the three
SQL-injection shapes). -/
def scanSqlPair (w1 w2 : List Char) : Option Char → List Char → Bool
  | _, [] => false
  | prev, c :: rest =>
    (wordHereB w1 prev (c :: rest) &&
      scanWordNoNL w2 (some (w1.getLastD 'x')) ((c :: rest).drop w1.length))
      || scanSqlPair w1 w2 (some c) rest

/-- Embeds `this.dangerousPatterns`: the twelve regexes of the SecurityManager
tested in order against the message. -/
def dangerousHit (message : String) : Bool :=
  let l := message.data.map Char.toLower
  containsSub "<script".data l
    || containsSub "javascript:".data l
    || hasOnAttr l
    || containsSub "<iframe".data l
    || containsSub "eval(".data l
    || containsSub "<object".data l
    || containsSub "<embed".data l
    || containsSub "onerror=".data l
    || containsSub "onload=".data l
    || scanSqlPair "select".data "from".data none l
    || scanSqlPair "union".data "select".data none l
    || scanSqlPair "drop".data "table".data none l

/-- Embeds `validateMessage` result `{ valid, reason, filtered }` (`reason` is
empty on acceptance, `filtered` empty on rejection, as in the source). -/
structure VRes where
  valid : Bool
  reason : String
  filtered : String
deriving DecidableEq, Repr

/-- Embeds `SecurityManager.validateMessage(message)`.  The `typeof message !==
'string'` branch is unreachable for typed frames.  `pf` is the third-party
`bad-words` `clean` function (`filterProfanity` wraps it in a `try` that
returns the input unchanged on an exception; a total `pf` never throws).
`MAX_MESSAGE_LENGTH = 500`. -/
def validateMessage (pf : String → String) (message : String) : VRes :=
  if message.length = 0 then ⟨false, "Empty message", ""⟩
  else if message.length > 500 then ⟨false, "Message too long", ""⟩
  else if dangerousHit message then ⟨false, "Dangerous content detected", ""⟩
  else ⟨true, "", pf message⟩

/-- A per-user rate-limit record `{ messages: [], skips: [], reports: [] }`
of action timestamps. -/
structure UserLimits where
  messages : List Nat
  skips : List Nat
  reports : List Nat
deriving DecidableEq, Repr

/-- Embeds `this.rateLimitConfig[action]`: `(limit, window)` per action class,
with the constants file defaults (messages 30/60 s, skips 10/60 s,
reports 3/3600 s); unknown actions have no config. -/
def rateLimitCfg : String → Option (Nat × Nat)
  | "messages" => some (30, 60000)
  | "skips" => some (10, 60000)
  | "reports" => some (3, 3600000)
  | _ => none

/-- Embeds `userLimits[action] || []`. -/
def UserLimits.getAction (ul : UserLimits) : String → List Nat
  | "messages" => ul.messages
  | "skips" => ul.skips
  | "reports" => ul.reports
  | _ => []

/-- Embeds `userLimits[action] = l` (only the three configured actions reach this
assignment). -/
def UserLimits.setAction (ul : UserLimits) : String → List Nat → UserLimits
  | "messages", l => { ul with messages := l }
  | "skips", l => { ul with skips := l }
  | "reports", l => { ul with reports := l }
  | _, _ => ul

/-- A ban-table entry `{ until, reason, bannedAt }`. -/
structure BanEntry where
  untilTime : Nat
  reason : String
  bannedAt : Nat
deriving DecidableEq, Repr

/-- A fingerprint record `{ userIds: Set, reports, bans, firstSeen }`; the
`Set` is a duplicate-free list in insertion order. -/
structure FPRec where
  userIds : List String
  reports : Nat
  bans : Nat
  firstSeen : Nat
deriving DecidableEq, Repr

/-- An abuse-tracking record
`{ messageCount, skipCount, reportCount, violations, startTime }`. -/
structure AbuseRec where
  messageCount : Nat
  skipCount : Nat
  reportCount : Nat
  violations : List String
  startTime : Nat
deriving DecidableEq, Repr

/-- SecurityManager state (the surfaces used by the handlers).  `userIPs`
is declared by the source but never written by the refactored modules. -/
structure SMState where
  rateLimits : JMap UserLimits
  bannedIPs : JMap BanEntry
  userIPs : JMap String
  fingerprints : JMap FPRec
  abuseTracking : JMap AbuseRec
deriving DecidableEq, Repr

/-- The initial SecurityManager state. -/
def SMState.init : SMState :=
  { rateLimits := [], bannedIPs := [], userIPs := [], fingerprints := [],
    abuseTracking := [] }

/-- Embeds `SecurityManager.checkRateLimit(userId, action)`: unknown action
passes; otherwise trim the window, compare against the limit, append the
new timestamp only on success.  Total — returns a Bool in every case. -/
def checkRateLimit (st : SMState) (userId action : String) (now : Nat) :
    Bool × SMState :=
  match rateLimitCfg action with
  | none => (true, st)
  | some (limit, window) =>
    let rl := if st.rateLimits.hasKey userId then st.rateLimits
              else st.rateLimits.set userId ⟨[], [], []⟩
    let ul := (rl.get userId).getD ⟨[], [], []⟩
    let recent := (ul.getAction action).filter (fun t => now - t < window)
    if recent.length ≥ limit then
      (false, { st with rateLimits := rl.set userId (ul.setAction action recent) })
    else
      (true,
       { st with rateLimits :=
           rl.set userId (ul.setAction action (recent ++ [now])) })

/-- Embeds `SecurityManager.trackUserAction(userId, action)`. -/
def trackUserAction (st : SMState) (userId action : String) (now : Nat) :
    SMState :=
  let at0 := if st.abuseTracking.hasKey userId then st.abuseTracking
             else st.abuseTracking.set userId ⟨0, 0, 0, [], now⟩
  let tr := (at0.get userId).getD ⟨0, 0, 0, [], now⟩
  let tr1 :=
    if action = "message" then { tr with messageCount := tr.messageCount + 1 }
    else if action = "skip" then { tr with skipCount := tr.skipCount + 1 }
    else if action = "report" then { tr with reportCount := tr.reportCount + 1 }
    else tr
  { st with abuseTracking := at0.set userId tr1 }

/-- Embeds `SecurityManager.detectAbusePatterns(userId)` (the refactored variant:
returns `[]` when the user has no abuse record).  The float conditions
`sessionDuration > 10` and `messageCount / sessionDuration > 2` (duration
in seconds) are the exact rational inequalities on milliseconds. -/
def detectAbusePatterns (st : SMState) (userId : String) (now : Nat) :
    List String :=
  match st.abuseTracking.get userId with
  | none => []
  | some tr =>
    (if decide (now - tr.startTime > 10000)
        && decide (tr.messageCount * 1000 > 2 * (now - tr.startTime))
     then ["spammer"] else [])
    ++ (if tr.skipCount > 15 then ["skip_abuser"] else [])
    ++ (if tr.reportCount ≥ 3 then ["harasser"] else [])

/-- Embeds `SecurityManager.banIP(ip, duration, reason)`. -/
def banIP (st : SMState) (ip : String) (duration : Nat) (reason : String)
    (now : Nat) : SMState :=
  { st with bannedIPs := st.bannedIPs.set ip ⟨now + duration, reason, now⟩ }

/-- Embeds `trackFingerprint` result `{ suspicious, reason }`. -/
structure FPCheck where
  suspicious : Bool
  reason : String
deriving DecidableEq, Repr

/-- Embeds `SecurityManager.trackFingerprint(fingerprint, userId)`. -/
def trackFingerprint (st : SMState) (fp userId : String) (now : Nat) :
    FPCheck × SMState :=
  let f0 := if st.fingerprints.hasKey fp then st.fingerprints
            else st.fingerprints.set fp ⟨[], 0, 0, now⟩
  let fpr := (f0.get fp).getD ⟨[], 0, 0, now⟩
  let fpr1 := if fpr.userIds.contains userId then fpr
              else { fpr with userIds := fpr.userIds ++ [userId] }
  let st1 := { st with fingerprints := f0.set fp fpr1 }
  if fpr1.reports ≥ 5 || fpr1.bans ≥ 3 then (⟨true, "Multiple violations"⟩, st1)
  else (⟨false, ""⟩, st1)

/-! ## ConnectionManager and the server-to-client message vocabulary -/

/-- A live connection: `ws.readyState === 1` as `isOpen`, and
`metadata.ip`.  Byte/message counters are metrics and omitted. -/
structure Conn where
  isOpen : Bool
  ip : String
deriving DecidableEq, Repr

/-- ConnectionManager state: `connections: userId -> connection`. -/
structure CMState where
  connections : JMap Conn
deriving DecidableEq, Repr

/-- Embeds `ConnectionManager.addConnection(userId, ws, {ip})` with
`maxConnectionsPerUser = 1`: an existing connection is removed (and its
socket closed) before the new one is appended. -/
def addConnection (cm : CMState) (userId ip : String) : CMState :=
  let c0 := if cm.connections.hasKey userId then cm.connections.del userId
            else cm.connections
  { cm with connections := c0 ++ [(userId, ⟨true, ip⟩)] }

/-- WebRTC signaling frame kinds (`offer` / `answer` / `ice-candidate`). -/
inductive SigKind where
  | offer
  | answer
  | iceCandidate
deriving DecidableEq, Repr

/-- Typing indicator kinds (`typing-start` / `typing-stop`). -/
inductive TypingKind where
  | start
  | stop
deriving DecidableEq, Repr

/-- The `video-request` family
(`video-request[-accept|-decline|-cancel]`). -/
inductive VReqKind where
  | request
  | accept
  | decline
  | cancel
deriving DecidableEq, Repr

/-- Server-to-client messages.  `paired` carries `isOfferer` only for video
pairings (`none` for text). -/
inductive OutMsg where
  | waiting
  | paired (partnerId : String) (isOfferer : Option Bool)
  | textMsg (fromId message : String)
  | signal (kind : SigKind) (fromId payload : String)
  | typing (kind : TypingKind) (fromId : String)
  | partnerDisconnected
  | videoModeReady (isOfferer : Bool) (partnerId : String)
  | videoReq (kind : VReqKind) (fromId : String)
  | warningMsg (message : String)
  | errorMsg (message : String)
deriving DecidableEq, Repr

/-- The combined state of the four managers as wired into the router. -/
structure SrvState where
  qm : QMState
  pm : PMState
  cm : CMState
  sm : SMState
deriving DecidableEq, Repr

/-- Embeds `ConnectionManager.sendToUser(userId, message)`: delivers only when the
connection exists and is open; the delivered frame is recorded in the
second component. -/
def sendToUser (st : SrvState) (userId : String) (msg : OutMsg) :
    Bool × List (String × OutMsg) :=
  match st.cm.connections.get userId with
  | some c => if c.isOpen then (true, [(userId, msg)]) else (false, [])
  | none => (false, [])

/-! ## MessageRouter handlers (`server/MessageRouter.js`,
`_registerDefaultHandlers`) -/

/-- The `identify` handler. -/
def handleIdentify (st : SrvState) (userId fingerprint : String) (now : Nat) :
    SrvState × List (String × OutMsg) :=
  let (check, sm1) := trackFingerprint st.sm fingerprint userId now
  let st1 := { st with sm := sm1 }
  if check.suspicious then
    (st1, (sendToUser st1 userId (OutMsg.warningMsg
      "Your account has been flagged. Please use the app responsibly.")).2)
  else (st1, [])

/-- The `join-text` handler: `addToQueue`, then `matchUsers`; on a match,
`createPair` (its result is discarded by the router) and `paired` to both
sides; otherwise `waiting`. -/
def handleJoinText (st : SrvState) (userId : String) (now : Nat) :
    SrvState × List (String × OutMsg) :=
  let (added, qm1) := addToQueue st.qm userId Mode.text 0 now
  let st1 := { st with qm := qm1 }
  if !added then
    (st1, (sendToUser st1 userId (OutMsg.errorMsg
      "Queue is full. Please try again later.")).2)
  else
    let (mres, qm2, _) := matchUsers st1.qm Mode.text now
    let st2 := { st1 with qm := qm2 }
    match mres with
    | some m =>
      let (_, pm1) := createPair st2.pm m.user1 m.user2 Mode.text now
      let st3 := { st2 with pm := pm1 }
      (st3, (sendToUser st3 m.user1 (OutMsg.paired m.user2 none)).2
            ++ (sendToUser st3 m.user2 (OutMsg.paired m.user1 none)).2)
    | none => (st2, (sendToUser st2 userId OutMsg.waiting).2)

/-- The `join-video` handler: as `join-text` but the first element of the
match is labelled the offerer. -/
def handleJoinVideo (st : SrvState) (userId : String) (now : Nat) :
    SrvState × List (String × OutMsg) :=
  let (added, qm1) := addToQueue st.qm userId Mode.video 0 now
  let st1 := { st with qm := qm1 }
  if !added then
    (st1, (sendToUser st1 userId (OutMsg.errorMsg
      "Queue is full. Please try again later.")).2)
  else
    let (mres, qm2, _) := matchUsers st1.qm Mode.video now
    let st2 := { st1 with qm := qm2 }
    match mres with
    | some m =>
      let (_, pm1) := createPair st2.pm m.user1 m.user2 Mode.video now
      let st3 := { st2 with pm := pm1 }
      (st3, (sendToUser st3 m.user1 (OutMsg.paired m.user2 (some true))).2
            ++ (sendToUser st3 m.user2 (OutMsg.paired m.user1 (some false))).2)
    | none => (st2, (sendToUser st2 userId OutMsg.waiting).2)

/-- The `text-message` handler: rate limit, content validation, abuse
tracking, session message counter, then forward the filtered text to
`targetId` (no pairing check). -/
def handleTextMessage (pf : String → String) (st : SrvState)
    (userId targetId text : String) (now : Nat) :
    SrvState × List (String × OutMsg) :=
  let (okRate, sm1) := checkRateLimit st.sm userId "messages" now
  let st1 := { st with sm := sm1 }
  if !okRate then
    (st1, (sendToUser st1 userId (OutMsg.errorMsg
      "Slow down! You\x27re sending messages too quickly.")).2)
  else
    let v := validateMessage pf text
    if !v.valid then
      (st1, (sendToUser st1 userId (OutMsg.errorMsg
        ("Message rejected: " ++ v.reason))).2)
    else
      let st2 := { st1 with sm := trackUserAction st1.sm userId "message" now,
                            pm := incrementMessageCount st1.pm userId }
      (st2, (sendToUser st2 targetId (OutMsg.textMsg userId v.filtered)).2)

/-- The shared `signalHandler` for `offer` / `answer` / `ice-candidate`:
opaque relay to `targetId` with `from` set (no pairing check). -/
def handleSignal (st : SrvState) (kind : SigKind)
    (userId targetId payload : String) : SrvState × List (String × OutMsg) :=
  (st, (sendToUser st targetId (OutMsg.signal kind userId payload)).2)

/-- The `typing-start` / `typing-stop` handlers: relay to `targetId`
(no pairing check). -/
def handleTyping (st : SrvState) (kind : TypingKind) (userId targetId : String) :
    SrvState × List (String × OutMsg) :=
  (st, (sendToUser st targetId (OutMsg.typing kind userId)).2)

/-- The `report-user` handler: reporter rate limit, then
`trackUserAction(reportedId, 'report')` — nothing else. -/
def handleReportUser (st : SrvState) (userId reportedId _reason : String)
    (now : Nat) : SrvState × List (String × OutMsg) :=
  let (okRate, sm1) := checkRateLimit st.sm userId "reports" now
  let st1 := { st with sm := sm1 }
  if !okRate then
    (st1, (sendToUser st1 userId (OutMsg.errorMsg
      "You\x27ve reported too many users. Please wait before reporting again.")).2)
  else
    ({ st1 with sm := trackUserAction st1.sm reportedId "report" now }, [])

/-- The `video-request` family handlers: relay only when
`pairingManager.getPair(from) === to`. -/
def handleVideoRequest (st : SrvState) (kind : VReqKind) (toId fromId : String) :
    SrvState × List (String × OutMsg) :=
  if getPair st.pm fromId = some toId then
    (st, (sendToUser st toId (OutMsg.videoReq kind fromId)).2)
  else (st, [])

/-- The `mode-switch-to-video` handler: `switchMode(userId, partnerId,
'video')`; on error reply `error`; on `bothReady` send `video-mode-ready`
to both sides with inverted `isOfferer`. -/
def handleModeSwitch (st : SrvState) (userId partnerId : String) (now : Nat) :
    SrvState × List (String × OutMsg) :=
  let (res, pm1) := switchMode st.pm userId partnerId Mode.video now
  let st1 := { st with pm := pm1 }
  match res with
  | SMRes.err e => (st1, (sendToUser st1 userId (OutMsg.errorMsg e)).2)
  | SMRes.first _ => (st1, [])
  | SMRes.ready pid =>
    (st1, (sendToUser st1 userId (OutMsg.videoModeReady false pid)).2
          ++ (sendToUser st1 pid (OutMsg.videoModeReady true userId)).2)

/-- Embeds `MessageRouter._handleDisconnect(userId)` (the `disconnect`-frame
path): remove from queue, track skip, break the pair, notify the partner,
then look up the partner's mode via `getUserMode` — after `breakPair`. -/
def routerHandleDisconnect (st : SrvState) (userId : String) (now : Nat) :
    SrvState × List (String × OutMsg) :=
  let (_, qm1) := removeFromQueue st.qm userId
  let sm1 := trackUserAction st.sm userId "skip" now
  let (bres, pm1) := breakPair st.pm userId now
  let st1 := { st with qm := qm1, sm := sm1, pm := pm1 }
  match bres with
  | BPRes.err _ => (st1, [])
  | BPRes.ok partnerId _ =>
    let s1 := (sendToUser st1 partnerId OutMsg.partnerDisconnected).2
    match getUserMode st1.pm partnerId with
    | some m =>
      let (_, qm2) := addToQueue st1.qm partnerId m 0 now
      let st2 := { st1 with qm := qm2 }
      (st2, s1 ++ (sendToUser st2 partnerId OutMsg.waiting).2)
    | none => (st1, s1)

/-- Embeds `handleUserDisconnect(userId)` from the refactored server entry file
(the transport-close path): remove from queue, track skip, abuse-pattern
check with harasser IP ban, break the pair, notify the partner, and
re-queue the partner using the mode of the returned `sessionData`. -/
def handleUserDisconnect (st : SrvState) (userId : String) (now : Nat) :
    SrvState × List (String × OutMsg) :=
  let (_, qm1) := removeFromQueue st.qm userId
  let sm1 := trackUserAction st.sm userId "skip" now
  let patterns := detectAbusePatterns sm1 userId now
  let sm2 :=
    if !patterns.isEmpty && patterns.contains "harasser" then
      match (st.cm.connections.get userId).map (·.ip) with
      | some ip => banIP sm1 ip 86400000 "Multiple reports" now
      | none => sm1
    else sm1
  let (bres, pm1) := breakPair st.pm userId now
  let st1 := { st with qm := qm1, sm := sm2, pm := pm1 }
  match bres with
  | BPRes.err _ => (st1, [])
  | BPRes.ok partnerId sessionData =>
    let s1 := (sendToUser st1 partnerId OutMsg.partnerDisconnected).2
    match sessionData.map (·.mode) with
    | some m =>
      let (_, qm2) := addToQueue st1.qm partnerId m 0 now
      let st2 := { st1 with qm := qm2 }
      (st2, s1 ++ (sendToUser st2 partnerId OutMsg.waiting).2)
    | none => (st1, s1)

/-! ## Frame dispatch (`MessageRouter.route`) and the transport message
handler of the refactored server entry -/

/-- Inbound frames as discriminated variants carrying exactly their schema
fields (the design notes prescribe this modelling; a typed frame always
passes `validateSchema`, whose required-field checks are presence checks on
free-form JSON). -/
inductive InMsg where
  | identify (userId fingerprint : String)
  | joinText (userId : String)
  | joinVideo (userId : String)
  | joinVoice (userId : String)
  | textMessage (userId targetId message : String)
  | signalMsg (kind : SigKind) (userId targetId payload : String)
  | disconnectMsg (userId : String)
  | typingMsg (kind : TypingKind) (userId targetId : String)
  | reportUser (userId reportedId reason : String)
  | videoReqMsg (kind : VReqKind) (toId fromId : String)
  | modeSwitchToVideo (userId partnerId : String)
  | ping
deriving DecidableEq, Repr

/-- Embeds `MessageRouter.route` on an already-decoded frame: dispatch to the
registered handler.  `_registerDefaultHandlers` registers no handler for
`ping` or `join-voice` (although both have schemas), so those reply
`Unknown message type` on the raw socket via `_sendError`.  Third
component: frames written directly to the sender's raw socket. -/
def routeMsg (pf : String → String) (st : SrvState) (m : InMsg) (now : Nat) :
    SrvState × List (String × OutMsg) × List OutMsg :=
  match m with
  | InMsg.identify u f =>
    let (st1, s) := handleIdentify st u f now; (st1, s, [])
  | InMsg.joinText u =>
    let (st1, s) := handleJoinText st u now; (st1, s, [])
  | InMsg.joinVideo u =>
    let (st1, s) := handleJoinVideo st u now; (st1, s, [])
  | InMsg.joinVoice _ => (st, [], [OutMsg.errorMsg "Unknown message type"])
  | InMsg.textMessage u t msg =>
    let (st1, s) := handleTextMessage pf st u t msg now; (st1, s, [])
  | InMsg.signalMsg k u t p =>
    let (st1, s) := handleSignal st k u t p; (st1, s, [])
  | InMsg.disconnectMsg u =>
    let (st1, s) := routerHandleDisconnect st u now; (st1, s, [])
  | InMsg.typingMsg k u t =>
    let (st1, s) := handleTyping st k u t; (st1, s, [])
  | InMsg.reportUser u r reason =>
    let (st1, s) := handleReportUser st u r reason now; (st1, s, [])
  | InMsg.videoReqMsg k toId fromId =>
    let (st1, s) := handleVideoRequest st k toId fromId; (st1, s, [])
  | InMsg.modeSwitchToVideo u p =>
    let (st1, s) := handleModeSwitch st u p now; (st1, s, [])
  | InMsg.ping => (st, [], [OutMsg.errorMsg "Unknown message type"])

/-- The outcome of one inbound transport frame: resulting state, frames
delivered through the ConnectionManager, frames written directly on the
receiving socket, and whether the receiving socket was closed. -/
structure WsStepOut where
  st : SrvState
  sent : List (String × OutMsg)
  wsReplies : List OutMsg
  closed : Bool
deriving DecidableEq, Repr

/-- The `ws.on('message')` handler of the refactored server entry file:
oversize check, JSON decode (`parsed = none` models undecodable bytes: the
`catch` replies `error: Invalid message format` on the socket), the
`identify` connection registration (skipped when `message.userId` is the
empty string, which is falsy), then `MessageRouter.route`.  No path calls
`ws.close`. -/
def wsMessageStep (pf : String → String) (st : SrvState) (wsIp : String)
    (len : Nat) (parsed : Option InMsg) (now : Nat) : WsStepOut :=
  if len > 10240 then
    ⟨st, [], [OutMsg.errorMsg "Message too large"], false⟩
  else
    match parsed with
    | none => ⟨st, [], [OutMsg.errorMsg "Invalid message format"], false⟩
    | some m =>
      let st1 :=
        match m with
        | InMsg.identify u _ =>
          if u = "" then st else { st with cm := addConnection st.cm u wsIp }
        | _ => st
      let (st2, sent, wsr) := routeMsg pf st1 m now
      ⟨st2, sent, wsr, false⟩

/-! ## Concrete fixtures for closed evaluations and witnesses -/

/-- A text-mode session between `x` and `y` started at time 0. -/
def sessXY : Session := ⟨"x", "y", Mode.text, 0, 0, []⟩

/-- Pairing state with `x` and `y` paired in text mode. -/
def pmXY : PMState :=
  { PMState.init with
    pairs := [("x", "y"), ("y", "x")],
    userModes := [("x", Mode.text), ("y", Mode.text)],
    sessions := [("x_y", sessXY)] }

/-- Open connections for `x`, `y` and `z`. -/
def cmXYZ : CMState :=
  ⟨[("x", ⟨true, "ip1"⟩), ("y", ⟨true, "ip2"⟩), ("z", ⟨true, "203.0.113.9"⟩)]⟩

/-- Server state: `x`, `y` paired in text mode, `z` connected, all queues
empty. -/
def s1 : SrvState := ⟨QMState.init, pmXY, cmXYZ, SMState.init⟩

/-- As `s1` but with `z` waiting in the text queue. -/
def s1b : SrvState :=
  { s1 with qm :=
    { QMState.init with
      queues := (ModeMap.const []).put Mode.text ["z"],
      userQueueMap := [("z", ⟨Mode.text, false⟩)],
      queueTimestamps := [("z", ⟨Mode.text, 0, 0⟩)] } }

/-- Server state with `x`, `y`, `z` connected and no other state. -/
def s2 : SrvState := ⟨QMState.init, PMState.init, cmXYZ, SMState.init⟩

/-- The state after five `report-user` frames naming `z` from five distinct
reporters (each within its own reports rate limit, so all five are
accepted). -/
def afterReports : SrvState :=
  let f := fun (st : SrvState) (r : String) => (handleReportUser st r "z" "spam" 100).1
  f (f (f (f (f s2 "r1") "r2") "r3") "r4") "r5"

/-- Queue state whose text queue holds the same user twice — the buggy
duplicate enqueue that triggers the anti-self-match guard. -/
def qmDup : QMState :=
  { QMState.init with
    queues := (ModeMap.const []).put Mode.text ["u", "u"],
    userQueueMap := [("u", ⟨Mode.text, false⟩)],
    queueTimestamps := [("u", ⟨Mode.text, 0, 0⟩)] }

/-- Pairing state with `x` and `y` paired in video mode. -/
def pmVid : PMState :=
  { PMState.init with
    pairs := [("x", "y"), ("y", "x")],
    userModes := [("x", Mode.video), ("y", Mode.video)],
    sessions := [("x_y", ⟨"x", "y", Mode.video, 0, 0, []⟩)] }

/-- Pairing state with a stale user-mode entry for the unpaired user `a`. -/
def pmStale : PMState := { PMState.init with userModes := [("a", Mode.text)] }

/-- Queue state with two distinct users waiting in the text queue. -/
def qmTwo : QMState :=
  { QMState.init with
    queues := (ModeMap.const []).put Mode.text ["a", "b"],
    userQueueMap := [("a", ⟨Mode.text, false⟩), ("b", ⟨Mode.text, false⟩)],
    queueTimestamps := [("a", ⟨Mode.text, 3, 0⟩), ("b", ⟨Mode.text, 4, 0⟩)] }

/-- Rate-limit state: user `u` already has 29 message timestamps inside the
window. -/
def sm29 : SMState :=
  { SMState.init with rateLimits := [("u", ⟨List.replicate 29 50, [], []⟩)] }

/-- Rate-limit state: user `u` already has 30 message timestamps inside the
window. -/
def sm30 : SMState :=
  { SMState.init with rateLimits := [("u", ⟨List.replicate 30 50, [], []⟩)] }

/-! ## Lemma library -/

theorem JMap.get_set_self {β : Type} (m : JMap β) (k : String) (v : β) :
    (m.set k v).get k = some v := by
  induction m with
  | nil => simp [set, get]
  | cons p rest ih =>
    by_cases hp : p.1 = k
    · simp [set, get, hp]
    · simp [set, get, hp, ih]

theorem JMap.get_set_other {β : Type} (m : JMap β) (k k' : String) (v : β)
    (h : k' ≠ k) : (m.set k v).get k' = m.get k' := by
  have h' : ¬ k = k' := fun hh => h hh.symm
  induction m with
  | nil => simp [set, get, h']
  | cons p rest ih =>
    by_cases hp : p.1 = k
    · have hp' : ¬ p.1 = k' := by rw [hp]; exact h'
      simp [set, get, hp, hp', h']
    · by_cases hp' : p.1 = k'
      · simp [set, get, hp, hp', h', h]
      · simp [set, get, hp, hp', ih]

theorem JMap.get_del_other {β : Type} (m : JMap β) (k k' : String)
    (h : k' ≠ k) : (m.del k).get k' = m.get k' := by
  have h' : ¬ k = k' := fun hh => h hh.symm
  induction m with
  | nil => simp [del, get]
  | cons p rest ih =>
    by_cases hp : p.1 = k
    · have hpk : ¬ p.1 = k' := by rw [hp]; exact h'
      simp [del, get, hp, hpk, h']
    · by_cases hp' : p.1 = k'
      · simp [del, get, hp, hp', h]
      · simp [del, get, hp, hp', ih]

theorem JMap.del_of_not_has {β : Type} (m : JMap β) (k : String)
    (h : m.hasKey k = false) : m.del k = m := by
  induction m with
  | nil => rfl
  | cons p rest ih =>
    simp only [hasKey, Bool.or_eq_false_iff, decide_eq_false_iff_not] at h
    simp [del, h.1, ih h.2]

theorem JMap.set_of_not_has {β : Type} (m : JMap β) (k : String) (v : β)
    (h : m.hasKey k = false) : m.set k v = m ++ [(k, v)] := by
  induction m with
  | nil => rfl
  | cons p rest ih =>
    simp only [hasKey, Bool.or_eq_false_iff, decide_eq_false_iff_not] at h
    simp [set, h.1, ih h.2]

theorem JMap.del_append_last {β : Type} (m : JMap β) (k : String) (v : β)
    (h : m.hasKey k = false) : JMap.del (m ++ [(k, v)]) k = m := by
  induction m with
  | nil => simp [del]
  | cons p rest ih =>
    simp only [hasKey, Bool.or_eq_false_iff, decide_eq_false_iff_not] at h
    simp [del, h.1, ih h.2]

theorem JMap.hasKey_append {β : Type} (m₁ m₂ : JMap β) (k : String) :
    JMap.hasKey (m₁ ++ m₂) k = (JMap.hasKey m₁ k || JMap.hasKey m₂ k) := by
  induction m₁ with
  | nil => simp [hasKey]
  | cons p rest ih => simp [hasKey, ih, Bool.or_assoc]

theorem JMap.get_eq_none_of_not_has {β : Type} (m : JMap β) (k : String)
    (h : m.hasKey k = false) : m.get k = none := by
  induction m with
  | nil => rfl
  | cons p rest ih =>
    simp only [hasKey, Bool.or_eq_false_iff, decide_eq_false_iff_not] at h
    simp [get, h.1, ih h.2]

theorem JMap.hasKey_eq_false_of_get_none {β : Type} (m : JMap β) (k : String)
    (h : m.get k = none) : m.hasKey k = false := by
  induction m with
  | nil => rfl
  | cons p rest ih =>
    by_cases hp : p.1 = k
    · simp [get, hp] at h
    · simp only [get, hp, if_false] at h
      simp [hasKey, hp, ih h]

theorem ModeMap.get_put_self {α : Type} (m : ModeMap α) (mo : Mode) (v : α) :
    (m.put mo v).get mo = v := by
  cases mo <;> rfl

theorem ModeMap.get_put_other {α : Type} (m : ModeMap α) (mo mo' : Mode) (v : α)
    (h : mo' ≠ mo) : (m.put mo v).get mo' = m.get mo' := by
  cases mo <;> cases mo' <;> first | rfl | exact absurd rfl h

theorem charListLe_total (a b : List Char) (h : charListLe a b = false) :
    charListLe b a = true := by
  induction a generalizing b with
  | nil => simp [charListLe] at h
  | cons x as ih =>
    cases b with
    | nil => rfl
    | cons y bs =>
      by_cases hxy : x = y
      · subst hxy
        simp only [charListLe, if_pos rfl] at h ⊢
        exact ih bs h
      · simp only [charListLe, if_neg hxy, decide_eq_false_iff_not] at h
        have hyx : ¬ y = x := fun hh => hxy hh.symm
        have : y < x := by
          rcases lt_trichotomy x y with hl | hl | hl
          · exact absurd hl h
          · exact absurd hl hxy
          · exact hl
        simp [charListLe, hyx, this]

theorem charListLe_antisymm (a b : List Char) (h1 : charListLe a b = true)
    (h2 : charListLe b a = true) : a = b := by
  induction a generalizing b with
  | nil =>
    cases b with
    | nil => rfl
    | cons y bs => simp [charListLe] at h2
  | cons x as ih =>
    cases b with
    | nil => simp [charListLe] at h1
    | cons y bs =>
      by_cases hxy : x = y
      · subst hxy
        simp only [charListLe, if_pos rfl] at h1 h2
        rw [ih bs h1 h2]
      · have hyx : ¬ y = x := fun hh => hxy hh.symm
        simp only [charListLe, if_neg hxy, decide_eq_true_eq] at h1
        simp only [charListLe, if_neg hyx, decide_eq_true_eq] at h2
        exact absurd h2 (lt_asymm h1)

theorem sortedJoin_comm (u v : String) : sortedJoin u v = sortedJoin v u := by
  unfold sortedJoin
  by_cases h1 : strLe u v
  · by_cases h2 : strLe v u
    · have hd : u.data = v.data := charListLe_antisymm _ _ h1 h2
      have : u = v := by
        cases u; cases v
        exact congrArg String.mk hd
      subst this; rfl
    · simp [h1, h2]
  · have h2 : strLe v u = true :=
      charListLe_total _ _ (Bool.eq_false_iff.mpr h1)
    simp [h1, h2]

theorem JMap.get_append {β : Type} (m₁ m₂ : JMap β) (k : String) :
    JMap.get (m₁ ++ m₂) k =
      (match JMap.get m₁ k with
       | some v => some v
       | none => JMap.get m₂ k) := by
  induction m₁ with
  | nil => simp [get]
  | cons p rest ih =>
    by_cases hp : p.1 = k
    · simp [get, hp]
    · simp [get, hp, ih]

theorem JMap.del_append_distrib {β : Type} (m₁ m₂ : JMap β) (k : String)
    (h : m₁.hasKey k = false) :
    JMap.del (m₁ ++ m₂) k = m₁ ++ JMap.del m₂ k := by
  induction m₁ with
  | nil => simp [del]
  | cons p rest ih =>
    simp only [hasKey, Bool.or_eq_false_iff, decide_eq_false_iff_not] at h
    simp [del, h.1, ih h.2]

theorem modeOk_eq_true (m : Mode) : modeOk m = true := by
  cases m <;> rfl

/-! ## Claim theorems -/

/-- C1: a `join-text` frame from a user who is already paired violates the
queue/pair exclusion invariant.  In `s1`, `x` is paired with `y` and the
text queue is empty: after the handler, `x` is simultaneously in the text
queue and still paired (and received `waiting`).  In `s1b`, `z` waits in
the queue: the handler matches `z` with the still-paired `x`, `createPair`
fails, yet `paired` is sent to both `z` and `x`, leaving `z` unpaired and
`x` paired with `y`. -/
theorem c1_join_from_paired_user_breaks_invariant :
    (isPaired s1.pm "x" = true
      ∧ (handleJoinText s1 "x" 100).1.qm.queues.get Mode.text = ["x"]
      ∧ isPaired (handleJoinText s1 "x" 100).1.pm "x" = true
      ∧ (handleJoinText s1 "x" 100).2 = [("x", OutMsg.waiting)])
    ∧ ((handleJoinText s1b "x" 100).2
        = [("z", OutMsg.paired "x" none), ("x", OutMsg.paired "z" none)]
      ∧ isPaired (handleJoinText s1b "x" 100).1.pm "z" = false
      ∧ getPair (handleJoinText s1b "x" 100).1.pm "x" = some "y") := by
  decide

/-- C2: five accepted `report-user` frames naming `z` (five distinct
reporters, each within its own reports rate limit — all five are tracked,
so `z`'s abuse record reaches `reportCount = 5`) leave the ban table empty
and `z`'s connection open: the refactored report handler never bans or
disconnects. -/
theorem c2_fifth_report_does_not_ban :
    afterReports.sm.bannedIPs = []
    ∧ afterReports.cm.connections.get "z" = some ⟨true, "203.0.113.9"⟩
    ∧ (afterReports.sm.abuseTracking.get "z").map (fun r => r.reportCount)
      = some 5 := by
  decide

/-- C3: for the pair `(x, y)` of `s1` (text mode, both connected), the
`disconnect`-frame path `MessageRouter._handleDisconnect` sends `y` only
`partner-disconnected` and never re-enqueues `y` (because it reads
`getUserMode(y)` after `breakPair` has deleted it), while the
transport-close path `handleUserDisconnect` of the server entry file sends
`partner-disconnected` then `waiting` and re-enqueues `y` in text mode
with a fresh `enqueuedAt`. -/
theorem c3_disconnect_frame_never_requeues_partner :
    ((routerHandleDisconnect s1 "x" 100).2 = [("y", OutMsg.partnerDisconnected)]
      ∧ (routerHandleDisconnect s1 "x" 100).1.qm.queues.get Mode.text = []
      ∧ (routerHandleDisconnect s1 "x" 100).1.qm.userQueueMap = [])
    ∧ ((handleUserDisconnect s1 "x" 100).2
        = [("y", OutMsg.partnerDisconnected), ("y", OutMsg.waiting)]
      ∧ (handleUserDisconnect s1 "x" 100).1.qm.queues.get Mode.text = ["y"]
      ∧ (handleUserDisconnect s1 "x" 100).1.qm.queueTimestamps.get "y"
        = some ⟨Mode.text, 100, 0⟩) := by
  decide

/-- C5 counterexample: with the text queue holding the duplicate `u` twice,
`matchUsers` returns none and reinserts `u` at the head of the normal
queue, but emits no log line — refuting the claim that the self-match
event is logged. -/
theorem c5_counterexample_self_match_not_logged :
    (matchUsers qmDup Mode.text 5).1 = none
    ∧ (matchUsers qmDup Mode.text 5).2.1.queues.get Mode.text = ["u"]
    ∧ (matchUsers qmDup Mode.text 5).2.2 = ([] : List String) := by
  decide

/-- C7 counterexample: an undecodable frame (2 bytes, not JSON) makes the
server reply `error: Invalid message format` on the socket but leaves the
transport open (`closed = false`), refuting the claim that the connection
is closed. -/
theorem c7_counterexample_bad_json_does_not_close :
    (wsMessageStep (fun s => s) s1 "ip" 2 none 0).wsReplies
      = [OutMsg.errorMsg "Invalid message format"]
    ∧ (wsMessageStep (fun s => s) s1 "ip" 2 none 0).closed = false := by
  decide

/-- C8 counterexample: in `pmStale`, neither `a` nor `b` is paired but `a`
has a stale user-mode entry; `createPair(a, b, text)` then `breakPair(a)`
deletes that entry, so the user-mode map is not restored — refuting the
claim as stated (whose only precondition is that neither user is
paired). -/
theorem c8_counterexample_stale_mode_not_restored :
    isPaired pmStale "a" = false ∧ isPaired pmStale "b" = false
    ∧ (breakPair (createPair pmStale "a" "b" Mode.text 10).2 "a" 20).2.userModes
      ≠ pmStale.userModes := by
  decide

/-- C10 counterexample: `x` and `y` are paired in video mode; the first
arrival `switchMode(x, y, video)` succeeds (`first` result, pending entry
set) yet leaves both partners with the same recorded mode — refuting the
claim that the two partners have different recorded modes until the second
arrival. -/
theorem c10_counterexample_same_mode_first_arrival :
    (switchMode pmVid "x" "y" Mode.video 50).1 = SMRes.first "y"
    ∧ (switchMode pmVid "x" "y" Mode.video 50).2.userModes.get "x"
      = (switchMode pmVid "x" "y" Mode.video 50).2.userModes.get "y" := by
  decide

/-- C6: `checkRateLimit(userId, 'messages')` first drops timestamps older
than the 60 s window, then compares the remaining count to the limit 30,
appending the new timestamp only on success (first conjunct, for every
state); concretely, a user with 29 surviving timestamps has the 30th
message accepted and a user with 30 has the 31st rejected (second and
third conjuncts).  `checkRateLimit` is a total Lean function, so it never
throws. -/
theorem c6_check_rate_limit_messages_window :
    (∀ (st : SMState) (u : String) (now : Nat),
      ((checkRateLimit st u "messages" now).1
        = decide ((((st.rateLimits.get u).getD ⟨[], [], []⟩).messages.filter
            (fun t => now - t < 60000)).length < 30))
      ∧ ((checkRateLimit st u "messages" now).2.rateLimits.get u
        = some
            ⟨(if (((st.rateLimits.get u).getD ⟨[], [], []⟩).messages.filter
                  (fun t => now - t < 60000)).length < 30
               then (((st.rateLimits.get u).getD ⟨[], [], []⟩).messages.filter
                  (fun t => now - t < 60000)) ++ [now]
               else (((st.rateLimits.get u).getD ⟨[], [], []⟩).messages.filter
                  (fun t => now - t < 60000))),
             ((st.rateLimits.get u).getD ⟨[], [], []⟩).skips,
             ((st.rateLimits.get u).getD ⟨[], [], []⟩).reports⟩))
    ∧ ((checkRateLimit sm29 "u" "messages" 100).1 = true
      ∧ ((checkRateLimit sm29 "u" "messages" 100).2.rateLimits.get "u").map
          (fun l => l.messages.length) = some 30)
    ∧ ((checkRateLimit sm30 "u" "messages" 100).1 = false
      ∧ ((checkRateLimit sm30 "u" "messages" 100).2.rateLimits.get "u").map
          (fun l => l.messages.length) = some 30) := by
  refine ⟨?_, by decide, by decide⟩
  intro st u now
  have hcfg : rateLimitCfg "messages" = some (30, 60000) := rfl
  have hget : ∀ ul : UserLimits, ul.getAction "messages" = ul.messages :=
    fun _ => rfl
  have hset : ∀ (ul : UserLimits) (l : List Nat),
      ul.setAction "messages" l = ⟨l, ul.skips, ul.reports⟩ := fun _ _ => rfl
  unfold checkRateLimit
  rw [hcfg]
  by_cases h : st.rateLimits.hasKey u
  · simp only [h, if_true, hget, hset]
    set ul := (st.rateLimits.get u).getD ⟨[], [], []⟩ with hul
    set trimmed := ul.messages.filter (fun t => now - t < 60000) with htr
    by_cases hl : trimmed.length ≥ 30
    · simp only [hl, if_true, JMap.get_set_self]
      constructor
      · simp [Nat.not_lt.mpr hl]
      · rw [if_neg (Nat.not_lt.mpr hl)]
    · have hl' : trimmed.length < 30 := Nat.lt_of_not_ge hl
      simp only [hl, if_false, JMap.get_set_self]
      constructor
      · simp [hl']
      · rw [if_pos hl']
  · have hb : st.rateLimits.hasKey u = false := by
      simpa using h
    have hnone : st.rateLimits.get u = none := JMap.get_eq_none_of_not_has _ _ hb
    simp only [hb, Bool.false_eq_true, if_false, hnone, Option.getD_none,
      JMap.get_set_self, Option.getD_some, hget, hset]
    simp only [List.filter_nil, List.length_nil, List.nil_append]
    rw [if_neg (by norm_num)]
    constructor
    · simp
    · rw [JMap.get_set_self]
      simp

/-- C7 (amended): a frame whose bytes are not decodable as JSON (and within
the 10240-byte size limit) makes the server reply
`error: Invalid message format` on the receiving socket and leaves the
transport open — the refactored message handler's `catch` never calls
`ws.close`. -/
theorem c7_bad_json_replies_error_and_stays_open (pf : String → String)
    (st : SrvState) (ip : String) (len now : Nat) (h : len ≤ 10240) :
    wsMessageStep pf st ip len none now
      = ⟨st, [], [OutMsg.errorMsg "Invalid message format"], false⟩ := by
  unfold wsMessageStep
  rw [if_neg (by omega)]

/-- C7 witness: the amended theorem applied at a 2-byte undecodable frame
against `s1`. -/
theorem c7_witness :
    (2 : Nat) ≤ 10240
    ∧ wsMessageStep (fun s => s) s1 "ip" 2 none 7
      = ⟨s1, [], [OutMsg.errorMsg "Invalid message format"], false⟩ :=
  ⟨by decide,
   c7_bad_json_replies_error_and_stays_open (fun s => s) s1 "ip" 2 7 (by decide)⟩

/-- C8 (amended): for distinct users `a`, `b` and any mode, starting from a
state where neither `a` nor `b` is paired, neither has a recorded user
mode, no mode-switch-pending entry is keyed by `a` or `b`, and no session
is stored under their pair id: `createPair(a,b,mode)` followed by
`breakPair(a)` restores the pairs map, the user-mode map, the sessions map
and the mode-switch-pending map exactly (only metrics counters differ). -/
theorem c8_create_then_break_restores (pm : PMState) (a b : String)
    (mode : Mode) (now1 now2 : Nat) (hab : a ≠ b)
    (hpa : pm.pairs.hasKey a = false) (hpb : pm.pairs.hasKey b = false)
    (hma : pm.userModes.hasKey a = false) (hmb : pm.userModes.hasKey b = false)
    (hqa : pm.modeSwitchPending.hasKey a = false)
    (hqb : pm.modeSwitchPending.hasKey b = false)
    (hsab : pm.sessions.hasKey (sortedJoin a b) = false) :
    (breakPair (createPair pm a b mode now1).2 a now2).2.pairs = pm.pairs
    ∧ (breakPair (createPair pm a b mode now1).2 a now2).2.userModes
      = pm.userModes
    ∧ (breakPair (createPair pm a b mode now1).2 a now2).2.sessions
      = pm.sessions
    ∧ (breakPair (createPair pm a b mode now1).2 a now2).2.modeSwitchPending
      = pm.modeSwitchPending := by
  have hba : ¬ b = a := fun hh => hab hh.symm
  -- the two-key insertions performed by createPair, as plain appends
  have hpairs1 : (pm.pairs.set a b).set b a = pm.pairs ++ [(a, b), (b, a)] := by
    rw [JMap.set_of_not_has _ _ _ hpa,
      JMap.set_of_not_has _ _ _ (by
        rw [JMap.hasKey_append, hpb]
        simp [JMap.hasKey, hab]),
      List.append_assoc]
    rfl
  have hmodes1 : (pm.userModes.set a mode).set b mode
      = pm.userModes ++ [(a, mode), (b, mode)] := by
    rw [JMap.set_of_not_has _ _ _ hma,
      JMap.set_of_not_has _ _ _ (by
        rw [JMap.hasKey_append, hmb]
        simp [JMap.hasKey, hab]),
      List.append_assoc]
    rfl
  have hcp : (createPair pm a b mode now1).2
      = { pm with
          pairs := pm.pairs ++ [(a, b), (b, a)],
          userModes := pm.userModes ++ [(a, mode), (b, mode)],
          sessions := pm.sessions
            ++ [(sortedJoin a b, ⟨a, b, mode, now1, 0, []⟩)],
          totalPairs := pm.totalPairs + 1,
          activePairs := (pm.pairs ++ [(a, b), (b, a)]).size / 2,
          totalSessions := pm.totalSessions + 1 } := by
    unfold createPair
    rw [if_neg hab, if_neg (by rw [hpa, hpb]; simp),
      if_neg (by rw [modeOk_eq_true]; simp)]
    simp only [hpairs1, hmodes1, JMap.set_of_not_has _ _ _ hsab]
  rw [hcp]
  -- breakPair on the enlarged state
  have hgetp : (pm.pairs ++ [(a, b), (b, a)]).get a = some b := by
    rw [JMap.get_append]
    rw [JMap.get_eq_none_of_not_has _ _ hpa]
    simp [JMap.get]
  unfold breakPair
  simp only [hgetp]
  refine ⟨?_, ?_, ?_, ?_⟩
  · rw [JMap.del_append_distrib _ _ _ hpa, JMap.del_append_distrib _ _ _ hpb]
    simp [JMap.del, hba]
  · rw [JMap.del_append_distrib _ _ _ hma, JMap.del_append_distrib _ _ _ hmb]
    simp [JMap.del, hba]
  · exact JMap.del_append_last _ _ _ hsab
  · rw [JMap.del_of_not_has _ _ hqa, JMap.del_of_not_has _ _ hqb]

/-- C8 witness: the amended round-trip applied to the initial
PairingManager state with users `a`, `b` in text mode. -/
theorem c8_witness :
    ("a" : String) ≠ "b"
    ∧ PMState.init.pairs.hasKey "a" = false
    ∧ PMState.init.sessions.hasKey (sortedJoin "a" "b") = false
    ∧ (breakPair (createPair PMState.init "a" "b" Mode.text 1).2 "a" 2).2.pairs
      = PMState.init.pairs
    ∧ (breakPair (createPair PMState.init "a" "b" Mode.text 1).2 "a" 2).2.userModes
      = PMState.init.userModes
    ∧ (breakPair (createPair PMState.init "a" "b" Mode.text 1).2 "a" 2).2.sessions
      = PMState.init.sessions
    ∧ (breakPair (createPair PMState.init "a" "b" Mode.text 1).2 "a" 2).2.modeSwitchPending
      = PMState.init.modeSwitchPending :=
  ⟨by decide, by decide, by decide,
   (c8_create_then_break_restores PMState.init "a" "b" Mode.text 1 2 (by decide)
     rfl rfl rfl rfl rfl rfl rfl).1,
   (c8_create_then_break_restores PMState.init "a" "b" Mode.text 1 2 (by decide)
     rfl rfl rfl rfl rfl rfl rfl).2.1,
   (c8_create_then_break_restores PMState.init "a" "b" Mode.text 1 2 (by decide)
     rfl rfl rfl rfl rfl rfl rfl).2.2.1,
   (c8_create_then_break_restores PMState.init "a" "b" Mode.text 1 2 (by decide)
     rfl rfl rfl rfl rfl rfl rfl).2.2.2⟩

/-- C10 (amended): when `switchMode(A, B, newMode)` is the first arrival
(no pending entry keyed by `A`), `A`'s recorded user mode is immediately
set to `newMode` while `B`'s recorded mode, the sessions map (hence the
session's mode and switch history) and the pair relation are unchanged;
consequently, when `newMode` differs from `B`'s recorded mode, the two
partners of the pair have different recorded modes until the second
arrival or the pending timeout. -/
theorem c10_first_arrival_sets_only_initiator_mode (st : PMState)
    (A B : String) (newMode : Mode) (now : Nat) (hne : A ≠ B)
    (hAB : st.pairs.get A = some B)
    (hpend : st.modeSwitchPending.get A = none) :
    (switchMode st A B newMode now).1 = SMRes.first B
    ∧ (switchMode st A B newMode now).2.userModes = st.userModes.set A newMode
    ∧ (switchMode st A B newMode now).2.userModes.get A = some newMode
    ∧ (switchMode st A B newMode now).2.userModes.get B = st.userModes.get B
    ∧ (switchMode st A B newMode now).2.sessions = st.sessions
    ∧ (switchMode st A B newMode now).2.pairs = st.pairs
    ∧ (st.userModes.get B ≠ some newMode →
        (switchMode st A B newMode now).2.userModes.get A
          ≠ (switchMode st A B newMode now).2.userModes.get B) := by
  have hsw : switchMode st A B newMode now
      = (SMRes.first B,
         { st with
           userModes := st.userModes.set A newMode,
           modeSwitchPending := st.modeSwitchPending.set B A }) := by
    unfold switchMode
    rw [if_neg (by rw [hAB]; simp), if_neg (by rw [modeOk_eq_true]; simp)]
    rw [hpend]
  rw [hsw]
  have hgB : (st.userModes.set A newMode).get B = st.userModes.get B :=
    JMap.get_set_other _ _ _ _ (fun hh => hne hh.symm)
  refine ⟨rfl, rfl, JMap.get_set_self _ _ _, hgB, rfl, rfl, ?_⟩
  intro hdiff
  rw [JMap.get_set_self, hgB]
  exact fun hh => hdiff hh.symm

/-- C10 witness: the amended theorem applied to the text-mode pair
`(x, y)` switching to video — the partners' recorded modes differ after the
first arrival. -/
theorem c10_witness :
    ("x" : String) ≠ "y"
    ∧ pmXY.pairs.get "x" = some "y"
    ∧ pmXY.modeSwitchPending.get "x" = none
    ∧ (switchMode pmXY "x" "y" Mode.video 50).1 = SMRes.first "y"
    ∧ (switchMode pmXY "x" "y" Mode.video 50).2.userModes.get "x"
      = some Mode.video
    ∧ (switchMode pmXY "x" "y" Mode.video 50).2.userModes.get "y"
      = pmXY.userModes.get "y"
    ∧ (switchMode pmXY "x" "y" Mode.video 50).2.sessions = pmXY.sessions
    ∧ ((switchMode pmXY "x" "y" Mode.video 50).2.userModes.get "x"
      ≠ (switchMode pmXY "x" "y" Mode.video 50).2.userModes.get "y") :=
  ⟨by decide, by decide, by decide,
   (c10_first_arrival_sets_only_initiator_mode pmXY "x" "y" Mode.video 50
     (by decide) (by decide) (by decide)).1,
   (c10_first_arrival_sets_only_initiator_mode pmXY "x" "y" Mode.video 50
     (by decide) (by decide) (by decide)).2.2.1,
   (c10_first_arrival_sets_only_initiator_mode pmXY "x" "y" Mode.video 50
     (by decide) (by decide) (by decide)).2.2.2.1,
   (c10_first_arrival_sets_only_initiator_mode pmXY "x" "y" Mode.video 50
     (by decide) (by decide) (by decide)).2.2.2.2.1,
   (c10_first_arrival_sets_only_initiator_mode pmXY "x" "y" Mode.video 50
     (by decide) (by decide) (by decide)).2.2.2.2.2.2 (by decide)⟩


/-- C4: for a paired, connected pair `(A, B)` where `A`'s
`mode-switch-to-video` arrives first (no pending entry keyed by `A`) and
`B`'s second while the pending entry exists and the pair is unbroken:
the first arrival sends nothing; after the second, both sides receive
`video-mode-ready` with exactly one side — the initiator `A` — receiving
`isOfferer = true`; the session's mode becomes video and exactly one
switch record `{from := old mode, to := video}` is appended to the
session's switch history. -/
theorem c4_mode_switch_two_step (st : SrvState) (A B : String)
    (sess : Session) (cA cB : Conn) (now1 now2 : Nat)
    (hne : A ≠ B)
    (hAB : st.pm.pairs.get A = some B)
    (hBA : st.pm.pairs.get B = some A)
    (hpend : st.pm.modeSwitchPending.get A = none)
    (hsess : st.pm.sessions.get (sortedJoin A B) = some sess)
    (hcA : st.cm.connections.get A = some cA) (hoA : cA.isOpen = true)
    (hcB : st.cm.connections.get B = some cB) (hoB : cB.isOpen = true) :
    (handleModeSwitch st A B now1).2 = []
    ∧ (handleModeSwitch (handleModeSwitch st A B now1).1 B A now2).2
      = [(B, OutMsg.videoModeReady false A), (A, OutMsg.videoModeReady true B)]
    ∧ (handleModeSwitch
        (handleModeSwitch st A B now1).1 B A now2).1.pm.sessions.get
          (sortedJoin A B)
      = some { sess with
               mode := Mode.video,
               switches := sess.switches ++ [⟨sess.mode, Mode.video, now2⟩] } := by
  have hba : B ≠ A := fun hh => hne hh.symm
  -- first arrival: switchMode(A, B, video) takes the pending-free branch
  have hsw1 : switchMode st.pm A B Mode.video now1
      = (SMRes.first B,
         ⟨st.pm.pairs, st.pm.sessions, st.pm.userModes.set A Mode.video,
          st.pm.modeSwitchPending.set B A, st.pm.totalPairs, st.pm.activePairs,
          st.pm.totalSessions, st.pm.modeSwitches, st.pm.sessionDurations⟩) := by
    unfold switchMode
    rw [if_neg (by rw [hAB]; simp), if_neg (by rw [modeOk_eq_true]; simp)]
    rw [hpend]
  have h1 : handleModeSwitch st A B now1
      = (⟨st.qm,
          ⟨st.pm.pairs, st.pm.sessions, st.pm.userModes.set A Mode.video,
           st.pm.modeSwitchPending.set B A, st.pm.totalPairs, st.pm.activePairs,
           st.pm.totalSessions, st.pm.modeSwitches, st.pm.sessionDurations⟩,
          st.cm, st.sm⟩, []) := by
    unfold handleModeSwitch
    rw [hsw1]
  -- second arrival: switchMode(B, A, video) finds the pending entry
  have hsw2 : switchMode
      ⟨st.pm.pairs, st.pm.sessions, st.pm.userModes.set A Mode.video,
       st.pm.modeSwitchPending.set B A, st.pm.totalPairs, st.pm.activePairs,
       st.pm.totalSessions, st.pm.modeSwitches, st.pm.sessionDurations⟩
      B A Mode.video now2
      = (SMRes.ready A,
         ⟨st.pm.pairs,
          st.pm.sessions.set (sortedJoin B A)
            { sess with
              switches := sess.switches ++ [⟨sess.mode, Mode.video, now2⟩],
              mode := Mode.video },
          ((st.pm.userModes.set A Mode.video).set B Mode.video).set A Mode.video,
          (st.pm.modeSwitchPending.set B A).del B, st.pm.totalPairs,
          st.pm.activePairs, st.pm.totalSessions, st.pm.modeSwitches + 1,
          st.pm.sessionDurations⟩) := by
    unfold switchMode
    simp only [JMap.get_set_self, hBA, hAB, modeOk_eq_true, Bool.not_true,
      Bool.false_eq_true, if_false, ne_eq, Option.some.injEq, not_true_eq_false,
      sortedJoin_comm B A, hsess]
  rw [h1]
  unfold handleModeSwitch
  rw [hsw2]
  refine ⟨rfl, ?_, ?_⟩
  · simp only [sendToUser, hcB, hcA, hoB, hoA, if_true]
    rfl
  · rw [sortedJoin_comm A B, JMap.get_set_self]

/-- C4 witness: the two-step switch applied to the concrete text pair
`(x, y)` of `s1`. -/
theorem c4_witness :
    ("x" : String) ≠ "y"
    ∧ s1.pm.pairs.get "x" = some "y"
    ∧ s1.pm.sessions.get (sortedJoin "x" "y") = some sessXY
    ∧ (handleModeSwitch s1 "x" "y" 50).2 = []
    ∧ (handleModeSwitch (handleModeSwitch s1 "x" "y" 50).1 "y" "x" 60).2
      = [("y", OutMsg.videoModeReady false "x"),
         ("x", OutMsg.videoModeReady true "y")]
    ∧ (handleModeSwitch
        (handleModeSwitch s1 "x" "y" 50).1 "y" "x" 60).1.pm.sessions.get
          (sortedJoin "x" "y")
      = some { sessXY with
               mode := Mode.video,
               switches := sessXY.switches
                 ++ [⟨sessXY.mode, Mode.video, 60⟩] } :=
  ⟨by decide, by decide, by decide,
   (c4_mode_switch_two_step s1 "x" "y" sessXY ⟨true, "ip1"⟩ ⟨true, "ip2"⟩ 50 60
     (by decide) (by decide) (by decide) (by decide) (by decide) (by decide)
     rfl (by decide) rfl).1,
   (c4_mode_switch_two_step s1 "x" "y" sessXY ⟨true, "ip1"⟩ ⟨true, "ip2"⟩ 50 60
     (by decide) (by decide) (by decide) (by decide) (by decide) (by decide)
     rfl (by decide) rfl).2.1,
   (c4_mode_switch_two_step s1 "x" "y" sessXY ⟨true, "ip1"⟩ ⟨true, "ip2"⟩ 50 60
     (by decide) (by decide) (by decide) (by decide) (by decide) (by decide)
     rfl (by decide) rfl).2.2⟩

/-- C5 (amended): `matchUsers(mode)` selects, in order of preference, two
users from the priority tier; else one from each tier with the priority
user first; else two from the normal tier; heads are taken FIFO.  If the
two selected heads are the same userId, the user is reinserted at the head
of the normal queue and none is returned — but no log is emitted (the
"must be logged" part of the claim fails; see the counterexample).
`matchUsers` never returns a result with `user1 = user2`. -/
theorem c5_match_users_selection (st : QMState) (mode : Mode) (now : Nat)
    (hlock : st.matchingLock = false) :
    (∀ u1 u2 prest, st.priorityQueues.get mode = u1 :: u2 :: prest → u1 ≠ u2 →
      ((matchUsers st mode now).1.map (fun r => (r.user1, r.user2, r.mode)))
        = some (u1, u2, mode)
      ∧ (matchUsers st mode now).2.1.priorityQueues.get mode = prest
      ∧ (matchUsers st mode now).2.1.queues.get mode = st.queues.get mode)
    ∧ (∀ u1 u2 nrest, st.priorityQueues.get mode = [u1] →
        st.queues.get mode = u2 :: nrest → u1 ≠ u2 →
      ((matchUsers st mode now).1.map (fun r => (r.user1, r.user2, r.mode)))
        = some (u1, u2, mode)
      ∧ (matchUsers st mode now).2.1.priorityQueues.get mode = []
      ∧ (matchUsers st mode now).2.1.queues.get mode = nrest)
    ∧ (∀ u1 u2 nrest, st.priorityQueues.get mode = [] →
        st.queues.get mode = u1 :: u2 :: nrest → u1 ≠ u2 →
      ((matchUsers st mode now).1.map (fun r => (r.user1, r.user2, r.mode)))
        = some (u1, u2, mode)
      ∧ (matchUsers st mode now).2.1.queues.get mode = nrest)
    ∧ (∀ u prest, st.priorityQueues.get mode = u :: u :: prest →
        (matchUsers st mode now).1 = none
        ∧ (matchUsers st mode now).2.1.queues.get mode
          = u :: st.queues.get mode
        ∧ (matchUsers st mode now).2.2 = [])
    ∧ (∀ u nrest, st.priorityQueues.get mode = [] →
        st.queues.get mode = u :: u :: nrest →
        (matchUsers st mode now).1 = none
        ∧ (matchUsers st mode now).2.1.queues.get mode = u :: nrest
        ∧ (matchUsers st mode now).2.2 = [])
    ∧ (∀ r st2 logs, matchUsers st mode now = (some r, st2, logs) →
        r.user1 ≠ r.user2) := by
  refine ⟨?_, ?_, ?_, ?_, ?_, ?_⟩
  · intro u1 u2 prest hpq hne12
    refine ⟨?_, ?_, ?_⟩ <;>
      simp [matchUsers, matchFinish, hlock, hpq, hne12, ModeMap.get_put_self]
  · intro u1 u2 nrest hpq hnq hne12
    refine ⟨?_, ?_, ?_⟩ <;>
      simp [matchUsers, matchFinish, hlock, hpq, hnq, hne12,
        ModeMap.get_put_self]
  · intro u1 u2 nrest hpq hnq hne12
    refine ⟨?_, ?_⟩ <;>
      simp [matchUsers, matchFinish, hlock, hpq, hnq, hne12,
        ModeMap.get_put_self]
  · intro u prest hpq
    refine ⟨?_, ?_, ?_⟩ <;>
      simp [matchUsers, matchFinish, hlock, hpq, ModeMap.get_put_self]
  · intro u nrest hpq hnq
    refine ⟨?_, ?_, ?_⟩ <;>
      simp [matchUsers, matchFinish, hlock, hpq, hnq, ModeMap.get_put_self]
  · intro r st2 logs h
    unfold matchUsers at h
    rw [hlock] at h
    simp only [Bool.false_eq_true, if_false] at h
    rcases hpq : st.priorityQueues.get mode with _ | ⟨a, _ | ⟨b, pq2⟩⟩
    · rcases hnq : st.queues.get mode with _ | ⟨c, _ | ⟨d, nq2⟩⟩
      · rw [hpq, hnq] at h
        simp at h
      · rw [hpq, hnq] at h
        simp at h
      · rw [hpq, hnq] at h
        simp only [matchFinish] at h
        split at h
        · exact absurd (congrArg Prod.fst h) (by simp)
        next hne2 =>
          have h1 := Option.some.inj (congrArg Prod.fst h)
          subst h1
          simpa using hne2
    · rcases hnq : st.queues.get mode with _ | ⟨c, nq1⟩
      · rw [hpq, hnq] at h
        simp at h
      · rw [hpq, hnq] at h
        simp only [matchFinish] at h
        split at h
        · exact absurd (congrArg Prod.fst h) (by simp)
        next hne2 =>
          have h1 := Option.some.inj (congrArg Prod.fst h)
          subst h1
          simpa using hne2
    · rw [hpq] at h
      simp only [matchFinish] at h
      split at h
      · exact absurd (congrArg Prod.fst h) (by simp)
      next hne2 =>
        have h1 := Option.some.inj (congrArg Prod.fst h)
        subst h1
        simpa using hne2

/-- C5 witness: the amended selection theorem applied to the two-user
normal queue `["a", "b"]`. -/
theorem c5_witness :
    qmTwo.matchingLock = false
    ∧ qmTwo.priorityQueues.get Mode.text = []
    ∧ qmTwo.queues.get Mode.text = ["a", "b"]
    ∧ (("a" : String) ≠ "b")
    ∧ ((matchUsers qmTwo Mode.text 7).1.map (fun r => (r.user1, r.user2, r.mode)))
      = some ("a", "b", Mode.text)
    ∧ (matchUsers qmTwo Mode.text 7).2.1.queues.get Mode.text = [] :=
  ⟨rfl, rfl, rfl, by decide,
   ((c5_match_users_selection qmTwo Mode.text 7 rfl).2.2.1 "a" "b" [] rfl rfl
     (by decide)).1,
   ((c5_match_users_selection qmTwo Mode.text 7 rfl).2.2.1 "a" "b" [] rfl rfl
     (by decide)).2⟩

/-- C9: every `text-message` frame that passes the rate limit and content
validation, and every `offer`/`answer`/`ice-candidate` and
`typing-start`/`typing-stop` frame, is forwarded to `targetId` whenever
`targetId` has an open connection, with no pairing check (the state — and
hence the pair relation — is arbitrary); the `video-request` family is
relayed only when `getPair(from)` equals `to` and is dropped otherwise. -/
theorem c9_relays_need_no_pairing_except_video_request :
    (∀ (pf : String → String) (st : SrvState) (u t text : String) (now : Nat)
        (sm1 : SMState) (r f : String) (cT : Conn),
      checkRateLimit st.sm u "messages" now = (true, sm1) →
      validateMessage pf text = ⟨true, r, f⟩ →
      st.cm.connections.get t = some cT → cT.isOpen = true →
      (handleTextMessage pf st u t text now).2 = [(t, OutMsg.textMsg u f)])
    ∧ (∀ (st : SrvState) (k : SigKind) (u t p : String) (cT : Conn),
      st.cm.connections.get t = some cT → cT.isOpen = true →
      (handleSignal st k u t p).2 = [(t, OutMsg.signal k u p)])
    ∧ (∀ (st : SrvState) (k : TypingKind) (u t : String) (cT : Conn),
      st.cm.connections.get t = some cT → cT.isOpen = true →
      (handleTyping st k u t).2 = [(t, OutMsg.typing k u)])
    ∧ (∀ (st : SrvState) (k : VReqKind) (toId fromId : String) (cT : Conn),
      getPair st.pm fromId = some toId →
      st.cm.connections.get toId = some cT → cT.isOpen = true →
      (handleVideoRequest st k toId fromId).2
        = [(toId, OutMsg.videoReq k fromId)])
    ∧ (∀ (st : SrvState) (k : VReqKind) (toId fromId : String),
      getPair st.pm fromId ≠ some toId →
      (handleVideoRequest st k toId fromId).2 = []) := by
  refine ⟨?_, ?_, ?_, ?_, ?_⟩
  · intro pf st u t text now sm1 r f cT hrate hv hconn hopen
    unfold handleTextMessage
    rw [hrate, hv]
    simp [sendToUser, hconn, hopen]
  · intro st k u t p cT hconn hopen
    unfold handleSignal
    simp [sendToUser, hconn, hopen]
  · intro st k u t cT hconn hopen
    unfold handleTyping
    simp [sendToUser, hconn, hopen]
  · intro st k toId fromId cT hpair hconn hopen
    unfold handleVideoRequest
    rw [if_pos hpair]
    simp [sendToUser, hconn, hopen]
  · intro st k toId fromId hpair
    unfold handleVideoRequest
    rw [if_neg hpair]

/-- C9 witness: in `s1` (where `x` is paired with `y`), a validated `hi`
from `x` is delivered to the connected `z` even though `x` and `z` are not
paired, and a `video-request` from `x` to `z` is dropped while one to `y`
is relayed. -/
theorem c9_witness :
    checkRateLimit s1.sm "x" "messages" 100
      = (true, (checkRateLimit s1.sm "x" "messages" 100).2)
    ∧ validateMessage (fun s => s) "hi" = ⟨true, "", "hi"⟩
    ∧ getPair s1.pm "x" ≠ some "z"
    ∧ (handleTextMessage (fun s => s) s1 "x" "z" "hi" 100).2
      = [("z", OutMsg.textMsg "x" "hi")]
    ∧ (handleVideoRequest s1 VReqKind.request "z" "x").2 = []
    ∧ (handleVideoRequest s1 VReqKind.request "y" "x").2
      = [("y", OutMsg.videoReq VReqKind.request "x")] :=
  ⟨by decide, by decide, by decide,
   c9_relays_need_no_pairing_except_video_request.1 (fun s => s) s1 "x" "z"
     "hi" 100 (checkRateLimit s1.sm "x" "messages" 100).2 "" "hi"
     ⟨true, "203.0.113.9"⟩ (by decide) (by decide) (by decide) rfl,
   c9_relays_need_no_pairing_except_video_request.2.2.2.2 s1 VReqKind.request
     "z" "x" (by decide),
   c9_relays_need_no_pairing_except_video_request.2.2.2.1 s1 VReqKind.request
     "y" "x" ⟨true, "ip2"⟩ (by decide) (by decide) rfl⟩
